import Mathlib

/-
Verification development for the VeriDoc AI Analyst backend (src/main.py).

The backend is a FastAPI application with two pipeline endpoints:
  * POST /upload-whitepaper/  (src/main.py lines 131-161)
  * POST /ask-question/       (src/main.py lines 164-184)
This file gives a shallow embedding of those endpoints and of the helper
machinery they use (SHA-256 fingerprinting, bearer-token extraction,
temporary-file lifecycle, the chunk splitter configuration), and proves
properties of the embedding.
-/

set_option maxRecDepth 100000

namespace VeriDoc

/- ------------------------------------------------------------------ -/
/- SHA-256 (FIPS 180-4), as used by `hashlib.sha256(content).hexdigest()`
   at src/main.py line 144.  Bytes are `Nat`s in `[0, 256)`; 32-bit words
   are `Nat`s reduced modulo `2 ^ 32`.                                  -/
/- ------------------------------------------------------------------ -/

/-- Reduce a natural number modulo `2 ^ 32` (32-bit word arithmetic). -/
def w32 (n : Nat) : Nat := n % 4294967296

/-- Right rotation of a 32-bit word by `n` positions. -/
def rotr (n x : Nat) : Nat := w32 ((x >>> n) ||| (x <<< (32 - n)))

/-- The SHA-256 `Ch` function: `(e AND f) XOR ((NOT e) AND g)`. -/
def ch (e f g : Nat) : Nat := (e &&& f) ^^^ ((e ^^^ 4294967295) &&& g)

/-- The SHA-256 `Maj` function. -/
def maj (a b c : Nat) : Nat := (a &&& b) ^^^ (a &&& c) ^^^ (b &&& c)

/-- The SHA-256 big Sigma-0 function. -/
def bsig0 (x : Nat) : Nat := rotr 2 x ^^^ rotr 13 x ^^^ rotr 22 x

/-- The SHA-256 big Sigma-1 function. -/
def bsig1 (x : Nat) : Nat := rotr 6 x ^^^ rotr 11 x ^^^ rotr 25 x

/-- The SHA-256 small sigma-0 function. -/
def ssig0 (x : Nat) : Nat := rotr 7 x ^^^ rotr 18 x ^^^ (x >>> 3)

/-- The SHA-256 small sigma-1 function. -/
def ssig1 (x : Nat) : Nat := rotr 17 x ^^^ rotr 19 x ^^^ (x >>> 10)

/-- The 64 SHA-256 round constants (FIPS 180-4 section 4.2.2, written in
    decimal). -/
def sha256K : List Nat :=
  [1116352408, 1899447441, 3049323471, 3921009573,
   961987163, 1508970993, 2453635748, 2870763221,
   3624381080, 310598401, 607225278, 1426881987,
   1925078388, 2162078206, 2614888103, 3248222580,
   3835390401, 4022224774, 264347078, 604807628,
   770255983, 1249150122, 1555081692, 1996064986,
   2554220882, 2821834349, 2952996808, 3210313671,
   3336571891, 3584528711, 113926993, 338241895,
   666307205, 773529912, 1294757372, 1396182291,
   1695183700, 1986661051, 2177026350, 2456956037,
   2730485921, 2820302411, 3259730800, 3345764771,
   3516065817, 3600352804, 4094571909, 275423344,
   430227734, 506948616, 659060556, 883997877,
   958139571, 1322822218, 1537002063, 1747873779,
   1955562222, 2024104815, 2227730452, 2361852424,
   2428436474, 2756734187, 3204031479, 3329325298]

/-- The eight 32-bit words of a SHA-256 hash state. -/
structure Hash8 where
  a : Nat
  b : Nat
  c : Nat
  d : Nat
  e : Nat
  f : Nat
  g : Nat
  h : Nat
deriving DecidableEq, Repr

/-- The SHA-256 initial hash value (FIPS 180-4 section 5.3.3, written in
    decimal). -/
def sha256H0 : Hash8 :=
  { a := 1779033703, b := 3144134277,
    c := 1013904242, d := 2773480762,
    e := 1359893119, f := 2600822924,
    g := 528734635, h := 1541459225 }

/-- Group a list of bytes into big-endian 32-bit words (four bytes each). -/
def blockWords : List Nat → List Nat
  | b0 :: b1 :: b2 :: b3 :: rest => (((b0 * 256 + b1) * 256 + b2) * 256 + b3) :: blockWords rest
  | _ => []

/-- Extend the 16-word message schedule by `n` more words
    (`w[t] = ssig1 w[t-2] + w[t-7] + ssig0 w[t-15] + w[t-16]` mod `2 ^ 32`). -/
def extendSchedule (ws : List Nat) : Nat → List Nat
  | 0 => ws
  | n + 1 =>
    let t := ws.length
    let wt := w32 (ssig1 (ws.getD (t - 2) 0) + ws.getD (t - 7) 0 +
                   ssig0 (ws.getD (t - 15) 0) + ws.getD (t - 16) 0)
    extendSchedule (ws ++ [wt]) n

/-- One SHA-256 compression round with round constant `k` and schedule word `w`. -/
def sha256Round (st : Hash8) (k w : Nat) : Hash8 :=
  let t1 := w32 (st.h + bsig1 st.e + ch st.e st.f st.g + k + w)
  let t2 := w32 (bsig0 st.a + maj st.a st.b st.c)
  { a := w32 (t1 + t2), b := st.a, c := st.b, d := st.c,
    e := w32 (st.d + t1), f := st.e, g := st.f, h := st.g }

/-- Compress one 64-byte block into the running hash state. -/
def compressBlock (H : Hash8) (block : List Nat) : Hash8 :=
  let W := extendSchedule (blockWords block) 48
  let st := (sha256K.zip W).foldl (fun st kw => sha256Round st kw.1 kw.2) H
  { a := w32 (H.a + st.a), b := w32 (H.b + st.b), c := w32 (H.c + st.c), d := w32 (H.d + st.d),
    e := w32 (H.e + st.e), f := w32 (H.f + st.f), g := w32 (H.g + st.g), h := w32 (H.h + st.h) }

/-- SHA-256 padding: append `0x80`, zero bytes to 56 mod 64, then the
    bit length as an eight-byte big-endian integer. -/
def padMessage (msg : List Nat) : List Nat :=
  let L := msg.length
  let bitLen := L * 8
  let zeros := (64 + 55 - L % 64) % 64
  msg ++ [0x80] ++ List.replicate zeros 0 ++
    [bitLen >>> 56 % 256, bitLen >>> 48 % 256, bitLen >>> 40 % 256, bitLen >>> 32 % 256,
     bitLen >>> 24 % 256, bitLen >>> 16 % 256, bitLen >>> 8 % 256, bitLen % 256]

/-- Split a byte list into 64-byte blocks (structural recursion on a fuel
    bound; `fuel = l.length` always suffices since every step consumes at
    least one byte). -/
def toBlocksAux : Nat → List Nat → List (List Nat)
  | 0, _ => []
  | fuel + 1, l => if l = [] then [] else l.take 64 :: toBlocksAux fuel (l.drop 64)

/-- Split a byte list into 64-byte blocks. -/
def toBlocks (l : List Nat) : List (List Nat) := toBlocksAux l.length l

/-- The SHA-256 hash state of a byte message. -/
def sha256Words (msg : List Nat) : Hash8 :=
  (toBlocks (padMessage msg)).foldl compressBlock sha256H0

/-- Serialize a 32-bit word as four big-endian bytes. -/
def wordBytes (w : Nat) : List Nat := [w >>> 24 % 256, w >>> 16 % 256, w >>> 8 % 256, w % 256]

/-- The 32-byte SHA-256 digest of a byte message. -/
def sha256Bytes (msg : List Nat) : List Nat :=
  let H := sha256Words msg
  wordBytes H.a ++ wordBytes H.b ++ wordBytes H.c ++ wordBytes H.d ++
  wordBytes H.e ++ wordBytes H.f ++ wordBytes H.g ++ wordBytes H.h

/-- The sixteen lowercase hexadecimal digit characters. -/
def hexChars : List Char := "0123456789abcdef".data

/-- The lowercase hexadecimal digit character for `n < 16`. -/
def hexDigitChar (n : Nat) : Char := hexChars.getD n '0'

/-- The two lowercase hexadecimal characters of one byte. -/
def byteHex (b : Nat) : List Char := [hexDigitChar (b >>> 4 % 16), hexDigitChar (b % 16)]

/-- The 64 lowercase hexadecimal characters of a SHA-256 digest. -/
def sha256HexChars (msg : List Nat) : List Char := (sha256Bytes msg).flatMap byteHex

/-- `hashlib.sha256(msg).hexdigest()`: the digest as a lowercase hex string. -/
def hexdigest (msg : List Nat) : String := String.mk (sha256HexChars msg)

/-- `session_id = f"doc_{file_hash}"` (src/main.py lines 144-145):
    the partition identifier derived from the uploaded bytes. -/
def sessionIdOf (content : List Nat) : String := "doc_" ++ hexdigest content

/- ------------------------------------------------------------------ -/
/- Module-level configuration (src/main.py lines 18, 68, 69, 148).    -/
/- ------------------------------------------------------------------ -/

/-- Line 18 of src/main.py assigns `HuggingFaceEmbeddings(model_name="all-MiniLM-L6-v2")`
    to the module global `embeddings_model`; it is rebound at line 68 before any
    request is served, so this binding is never used by an endpoint. -/
def embeddings_model_line18 : String := "all-MiniLM-L6-v2"

/-- Line 68 of src/main.py rebinds the module global `embeddings_model` to
    `OpenAIEmbeddings(model="text-embedding-3-small")`; this is the (single)
    embedding-capability configuration visible to both endpoints at request time. -/
def embeddings_model : String := "text-embedding-3-small"

/-- `llm = ChatOpenAI(model='gpt-3.5-turbo', ...)` (src/main.py line 69). -/
def llm_model : String := "gpt-3.5-turbo"

/-- `chunk_size=1000` passed to `RecursiveCharacterTextSplitter` (src/main.py line 148). -/
def chunk_size : Nat := 1000

/-- `chunk_overlap=200` passed to `RecursiveCharacterTextSplitter` (src/main.py line 148). -/
def chunk_overlap : Nat := 200

/-- Modelled from the spec: the chunking step of the Document Segmenter
    (`RecursiveCharacterTextSplitter(chunk_size=1000, chunk_overlap=200).split_documents`
    at src/main.py lines 148-149) is library code not present under src/.
    Following section 4.2 of the spec, extracted text is split into chunks of at
    most `size` characters with a fixed overlap of `overlap` characters between
    consecutive chunks; the spec's preference for paragraph/sentence boundaries
    before hard length cuts is abstracted to hard cuts at the maximum length.
    Structural recursion on a fuel bound; `fuel = text.length` always suffices
    since every step consumes at least one character. -/
def splitTextAux (size overlap : Nat) : Nat → List Char → List (List Char)
  | 0, _ => []
  | fuel + 1, text =>
    if text = [] then []
    else if text.length ≤ size then [text]
    else text.take size :: splitTextAux size overlap fuel (text.drop (max 1 (size - overlap)))

/-- The chunk sequence of one extracted text: `splitTextAux` run with
    sufficient fuel.  See the `splitTextAux` doc comment. -/
def splitText (size overlap : Nat) (text : List Char) : List (List Char) :=
  splitTextAux size overlap text.length text

/- ------------------------------------------------------------------ -/
/- HTTP results, external-capability events, bearer-token extraction. -/
/- ------------------------------------------------------------------ -/

/-- A response from an endpoint: a 200 payload or an `HTTPException` with
    a status code and a detail string. -/
inductive HttpResult (α : Type) where
  | ok (value : α)
  | error (status : Nat) (detail : String)
deriving DecidableEq, Repr

/-- Observable side effects of a request: temp-file allocation, and every call
    made to an external capability (extraction library aside, these are the
    embedding provider, the vector store and the generation provider), plus the
    JWT decode performed only by `get_current_user`. -/
inductive ExtEvent where
  | tmpCreate
  | extract
  | embedCall (model : String)
  | storeUpsert (ns : String) (texts : List String)
  | storeInit (ns : String)
  | retrieve (ns : String)
  | generate (model : String) (prompt : String)
  | jwtDecode
deriving DecidableEq, Repr

/-- Split a character list at its first space, dropping the space —
    the behavior of Python's `str.partition(" ")` on scheme and parameter. -/
def splitAtFirstSpace : List Char → List Char × List Char
  | [] => ([], [])
  | c :: cs =>
    if c = ' ' then ([], cs)
    else
      let p := splitAtFirstSpace cs
      (c :: p.1, p.2)

/-- `fastapi.security.OAuth2PasswordBearer` with `auto_error=True`
    (`oauth2_scheme` at src/main.py line 38), resolved by `Depends(oauth2_scheme)`
    on both pipeline endpoints: a missing or empty `Authorization` header, or a
    scheme other than `bearer` (case-insensitive), yields HTTP 401
    "Not authenticated"; otherwise the parameter after the first space is
    returned as the token, with no further inspection. -/
def authorize : Option String → Except (Nat × String) String
  | none => .error (401, "Not authenticated")
  | some s =>
    if s.data = [] then .error (401, "Not authenticated")
    else
      let p := splitAtFirstSpace s.data
      if p.1.map Char.toLower = "bearer".data then .ok (String.mk p.2)
      else .error (401, "Not authenticated")

/-- The JWT decode outcome used by `get_current_user`: `none` models
    `jwt.PyJWTError`; `some none` a valid token whose payload lacks `"sub"`;
    `some (some email)` a valid token for `email`. -/
structure AuthWorld where
  decodedSub : Option (Option String)

/-- `get_current_user` (src/main.py lines 88-96): decodes and verifies the JWT
    and extracts the `sub` claim.  Defined in the source but NOT used by the
    `/upload-whitepaper/` or `/ask-question/` endpoints, which depend only on
    `oauth2_scheme`. -/
def get_current_user (w : AuthWorld) : Except (Nat × String) String × List ExtEvent :=
  (match w.decodedSub with
   | none => .error (401, "Invalid authentication credentials")
   | some none => .error (401, "Invalid authentication credentials")
   | some (some email) => .ok email,
   [.jwtDecode])

/- ------------------------------------------------------------------ -/
/- POST /upload-whitepaper/ (src/main.py lines 131-161).              -/
/- ------------------------------------------------------------------ -/

/-- An upload request: the multipart file's name, declared media type and
    bytes, plus the `Authorization` header (absent when not sent). -/
structure UploadRequest where
  filename : String
  contentType : String
  content : List Nat
  auth : Option String

/-- Oracle for the external behavior during one upload: whether staging the
    bytes succeeds (`await file.read()` and `tmp_file.write(content)` at
    src/main.py lines 141-142 — `false` models an exception there, e.g. a
    client disconnect or a full disk, raised after `NamedTemporaryFile` has
    created the file but before `tmp_file_path = tmp_file.name` runs), what
    `PyPDFLoader.load` returns (`none` models a raised extraction exception;
    `some pages` the per-page extracted text), and whether
    `PineconeVectorStore.from_documents` (embedding plus upsert) succeeds. -/
structure UploadWorld where
  stageOk : Bool
  pages : Option (List String)
  upsertOk : Bool

/-- Outcome of an upload request: the HTTP result, the ordered observable
    events, and whether the staged temporary file still exists on return. -/
structure UploadOutcome where
  result : HttpResult String
  events : List ExtEvent
  tempLeft : Bool
deriving DecidableEq, Repr

/-- The `finally` clause at src/main.py lines 159-161:
    `if tmp_file_path and os.path.exists(tmp_file_path): os.remove(tmp_file_path)`.
    Takes the `tmp_file_path` variable and whether the temp file exists,
    returns whether it exists afterwards. -/
def cleanupTemp (tmpPath : Option String) (exists_ : Bool) : Bool :=
  match tmpPath with
  | none => exists_
  | some _ => if exists_ then false else exists_

/-- The `try`/`except`/`finally` body of `upload_whitepaper`
    (src/main.py lines 138-161): stage the bytes into a temporary file, compute
    the SHA-256 fingerprint and `session_id`, extract with `PyPDFLoader`, split
    with the configured splitter, and call `PineconeVectorStore.from_documents`
    (which embeds the chunks and upserts them into the `session_id` namespace);
    any exception becomes HTTP 500, and the `finally` clause removes the
    temporary file.  `tempfile.NamedTemporaryFile(delete=False)` creates the
    file on disk as soon as the `with` statement at line 140 is entered, but
    the Python variable `tmp_file_path` is assigned only at line 143, AFTER
    the read and write of the upload: if staging raises in that window, the
    `finally` clause runs with `tmp_file_path` still `None` and removes
    nothing, although the temporary file exists. -/
def uploadTryFinally (req : UploadRequest) (w : UploadWorld) : UploadOutcome :=
  if w.stageOk then
    let tmpPath : Option String := some "/tmp/staged.pdf"
    let sid := sessionIdOf req.content
    match w.pages with
    | none =>
      { result := .error 500 "extraction failed",
        events := [.tmpCreate, .extract],
        tempLeft := cleanupTemp tmpPath true }
    | some pages =>
      let chunks := pages.flatMap fun p => splitText chunk_size chunk_overlap p.data
      let evs := [ExtEvent.tmpCreate, .extract, .embedCall embeddings_model,
                  .storeUpsert sid (chunks.map String.mk)]
      if w.upsertOk then
        { result := .ok sid, events := evs, tempLeft := cleanupTemp tmpPath true }
      else
        { result := .error 500 "upsert failed", events := evs,
          tempLeft := cleanupTemp tmpPath true }
  else
    { result := .error 500 "staging failed",
      events := [.tmpCreate],
      tempLeft := cleanupTemp none true }

/-- `upload_whitepaper` (src/main.py lines 131-161): the bearer-token
    dependency is resolved first; then the declared media type is checked
    against `application/pdf` (line 136) before any temporary file is created
    or any external capability is contacted; then the staged pipeline runs. -/
def uploadWhitepaper (req : UploadRequest) (w : UploadWorld) : UploadOutcome :=
  match authorize req.auth with
  | .error e => { result := .error e.1 e.2, events := [], tempLeft := false }
  | .ok _token =>
    if req.contentType ≠ "application/pdf" then
      { result := .error 400 "Invalid file type.", events := [], tempLeft := false }
    else
      uploadTryFinally req w

/- ------------------------------------------------------------------ -/
/- POST /ask-question/ (src/main.py lines 164-184).                   -/
/- ------------------------------------------------------------------ -/

/-- An ask-question request: the JSON body fields `session_id` and `query`,
    plus the `Authorization` header. -/
structure AskRequest where
  sessionId : String
  query : String
  auth : Option String

/-- Oracle for the external behavior during one question: whether connecting
    to the existing index succeeds, the chunks retrieval returns for this
    query in this namespace, whether the generation call succeeds, and the
    generation capability's text output as a function of the prompt. -/
structure AskWorld where
  storeOk : Bool
  retrieved : List String
  genOk : Bool
  llm : String → String

/-- Outcome of an ask-question request. -/
structure AskOutcome where
  result : HttpResult String
  events : List ExtEvent
deriving DecidableEq, Repr

/-- The prompt the `RetrievalQA` "stuff" chain hands the generation model:
    the retrieved chunks joined into one context, followed by the question
    (abstracting the library's fixed prompt template). -/
def stuffPrompt (chunks : List String) (q : String) : String :=
  String.intercalate "\n\n" chunks ++ "\n\nQuestion: " ++ q

/-- `ask_question` (src/main.py lines 164-184): after the bearer-token
    dependency, the handler immediately calls
    `PineconeVectorStore.from_existing_index` (no validation of `session_id`
    or `query`), builds a `RetrievalQA` chain of type "stuff" and invokes it:
    the retriever embeds the query and queries the namespace, and the chain
    then always calls the generation model on the stuffed context — also when
    retrieval returned zero chunks.  The handler returns
    `result.get('result', 'No answer found.')`, i.e. the generated text
    (the chain's output dict always carries the `result` key); any exception
    becomes HTTP 500. -/
def askQuestion (req : AskRequest) (w : AskWorld) : AskOutcome :=
  match authorize req.auth with
  | .error e => { result := .error e.1 e.2, events := [] }
  | .ok _token =>
    if w.storeOk then
      let prompt := stuffPrompt w.retrieved req.query
      let evs := [ExtEvent.storeInit req.sessionId, .embedCall embeddings_model,
                  .retrieve req.sessionId, .generate llm_model prompt]
      if w.genOk then { result := .ok (w.llm prompt), events := evs }
      else { result := .error 500 "generation failed", events := evs }
    else
      { result := .error 500 "store unavailable", events := [.storeInit req.sessionId] }

/- ------------------------------------------------------------------ -/
/- Helper lemmas.                                                     -/
/- ------------------------------------------------------------------ -/

/-- Sanity check of the SHA-256 embedding against the FIPS 180-4 test vector
    for the empty message. -/
theorem sha256_empty_vector :
    hexdigest [] = "e3b0c44298fc1c149afbf4c8996fb92427ae41e4649b934ca495991b7852b855" := by
  rfl

/-- Sanity check of the SHA-256 embedding against the FIPS 180-4 test vector
    for the three-byte message "abc". -/
theorem sha256_abc_vector :
    hexdigest [0x61, 0x62, 0x63] =
      "ba7816bf8f01cfea414140de5dae2223b00361a396177a9cb410ff61f20015ad" := by
  rfl

theorem hexDigitChar_mem (n : Nat) : hexDigitChar n ∈ hexChars := by
  unfold hexDigitChar
  by_cases h : n < hexChars.length
  · rw [List.getD_eq_getElem _ _ h]
    exact List.getElem_mem h
  · rw [List.getD_eq_default _ _ (by omega)]
    decide

theorem byteHex_mem {c : Char} {b : Nat} (h : c ∈ byteHex b) : c ∈ hexChars := by
  rcases h with _ | ⟨_, h⟩
  · exact hexDigitChar_mem _
  · rcases h with _ | ⟨_, h⟩
    · exact hexDigitChar_mem _
    · cases h

theorem length_flatMap_byteHex (l : List Nat) : (l.flatMap byteHex).length = 2 * l.length := by
  induction l with
  | nil => rfl
  | cons a t ih =>
    simp only [List.flatMap_cons, List.length_append, List.length_cons, ih, byteHex]
    simp
    omega

theorem sha256Bytes_length (m : List Nat) : (sha256Bytes m).length = 32 := by
  simp [sha256Bytes, wordBytes]

theorem sha256HexChars_length (m : List Nat) : (sha256HexChars m).length = 64 := by
  unfold sha256HexChars
  rw [length_flatMap_byteHex, sha256Bytes_length]

theorem sha256HexChars_mem {c : Char} {m : List Nat} (h : c ∈ sha256HexChars m) :
    c ∈ hexChars := by
  unfold sha256HexChars at h
  rcases List.mem_flatMap.mp h with ⟨b, _, hc⟩
  exact byteHex_mem hc

theorem sessionIdOf_data (c : List Nat) :
    (sessionIdOf c).data = 'd' :: 'o' :: 'c' :: '_' :: sha256HexChars c := by
  show ("doc_" ++ hexdigest c).data = _
  rw [String.data_append]
  rfl

theorem sessionIdOf_length (c : List Nat) : (sessionIdOf c).length = 68 := by
  show (sessionIdOf c).data.length = 68
  rw [sessionIdOf_data]
  simp [sha256HexChars_length]

theorem authorize_none : authorize none = .error (401, "Not authenticated") := rfl

theorem authorize_bearer (t : String) : authorize (some ("Bearer " ++ t)) = .ok t := by
  obtain ⟨l⟩ := t
  rfl

/-- Inversion: a 200 response from `uploadWhitepaper` carries exactly the
    content-derived partition identifier. -/
theorem upload_ok_sessionId {req : UploadRequest} {w : UploadWorld} {s : String}
    (h : (uploadWhitepaper req w).result = .ok s) : s = sessionIdOf req.content := by
  unfold uploadWhitepaper at h
  split at h
  · simp at h
  · split at h
    · simp at h
    · unfold uploadTryFinally at h
      split at h
      · split at h
        · simp at h
        · split at h
          · simp at h
            exact h.symm
          · simp at h
      · simp at h

theorem splitTextAux_chunk_le (size overlap : Nat) :
    ∀ (fuel : Nat) (t : List Char), ∀ c ∈ splitTextAux size overlap fuel t, c.length ≤ size := by
  intro fuel
  induction fuel with
  | zero => intro t c hc; simp [splitTextAux] at hc
  | succ fuel ih =>
    intro t c hc
    rw [splitTextAux] at hc
    split at hc
    · simp at hc
    · split at hc
      · rw [List.mem_singleton] at hc
        subst hc
        assumption
      · rcases List.mem_cons.mp hc with rfl | hmem
        · simp
        · exact ih _ c hmem

theorem splitText_chunk_le (size overlap : Nat) (t : List Char) :
    ∀ c ∈ splitText size overlap t, c.length ≤ size :=
  splitTextAux_chunk_le size overlap t.length t

theorem splitTextAux_head (size overlap fuel : Nat) (t : List Char) (h : t ≠ []) :
    ∃ rest, splitTextAux size overlap (fuel + 1) t = t.take size :: rest := by
  rw [splitTextAux]
  rw [if_neg h]
  by_cases hle : t.length ≤ size
  · rw [if_pos hle]
    exact ⟨[], by rw [List.take_of_length_le hle]⟩
  · rw [if_neg hle]
    exact ⟨_, rfl⟩

theorem splitTextAux_chain (size overlap : Nat) (ho : overlap < size) :
    ∀ (fuel : Nat) (t : List Char),
      List.Chain' (fun a b => a.drop (size - overlap) = b.take overlap ∧
        (a.drop (size - overlap)).length = overlap) (splitTextAux size overlap fuel t) := by
  intro fuel
  induction fuel with
  | zero => intro t; simp [splitTextAux]
  | succ fuel ih =>
    intro t
    rw [splitTextAux]
    split
    · simp
    · split
      · simp
      · rename_i hne hnle
        have hstep : max 1 (size - overlap) = size - overlap := by omega
        have hlen : size < t.length := by omega
        refine List.chain'_cons'.mpr ⟨?_, ih _⟩
        intro y hy
        cases fuel with
        | zero => simp [splitTextAux] at hy
        | succ fuel' =>
          have hdropne : t.drop (max 1 (size - overlap)) ≠ [] := by
            intro hnil
            have := congrArg List.length hnil
            simp only [List.length_drop, List.length_nil] at this
            omega
          obtain ⟨rest, hrest⟩ := splitTextAux_head size overlap fuel' _ hdropne
          rw [hrest] at hy
          simp only [List.head?_cons, Option.mem_def, Option.some.injEq] at hy
          subst hy
          rw [hstep]
          constructor
          · rw [List.drop_take, List.take_take]
            have h1 : size - (size - overlap) = overlap := by omega
            have h2 : min overlap size = overlap := by omega
            rw [h1, h2]
          · simp only [List.length_drop, List.length_take]
            omega

theorem splitText_chain (size overlap : Nat) (ho : overlap < size) (t : List Char) :
    List.Chain' (fun a b => a.drop (size - overlap) = b.take overlap ∧
      (a.drop (size - overlap)).length = overlap) (splitText size overlap t) :=
  splitTextAux_chain size overlap ho t.length t

/- ------------------------------------------------------------------ -/
/- Claim theorems.                                                    -/
/- ------------------------------------------------------------------ -/

/-- C1 (counterexample): the ask-question operation, called with BOTH
    `session_id` and `query` empty, does not return an `InvalidRequest`
    error and does make external calls — it contacts the vector store,
    embeds the query, retrieves, invokes generation and returns 200 with
    the generated text.  This refutes the claim that empty inputs are
    rejected with `InvalidRequest` before any external call. -/
theorem c1_counterexample :
    (askQuestion ⟨"", "", some "Bearer t"⟩
        ⟨true, [], true, fun _ => "I could not find that."⟩).events ≠ [] ∧
    (askQuestion ⟨"", "", some "Bearer t"⟩
        ⟨true, [], true, fun _ => "I could not find that."⟩).result =
      .ok "I could not find that." := by
  exact ⟨by decide, rfl⟩

/-- C1 (amended): `ask_question` performs no validation of `session_id` or
    `query` at all: for every request whose bearer token is extracted
    (including those where both fields are the empty string), the handler
    contacts the vector store — at least one external call occurs — and an
    `InvalidRequest` (HTTP 400) error is never returned. -/
theorem c1_no_empty_input_validation (req : AskRequest) (w : AskWorld) (tk : String)
    (h : authorize req.auth = .ok tk) :
    (askQuestion req w).events ≠ [] ∧
    ∀ d, (askQuestion req w).result ≠ .error 400 d := by
  by_cases hs : w.storeOk <;> by_cases hg : w.genOk <;>
    simp [askQuestion, h, hs, hg]

/-- C1 (witness): the amended theorem applied at a concrete request with
    empty `session_id` and empty `query`. -/
theorem c1_witness :
    (askQuestion ⟨"", "", some "Bearer tok"⟩ ⟨true, [], true, fun _ => "hi"⟩).events ≠ [] ∧
    ∀ d, (askQuestion ⟨"", "", some "Bearer tok"⟩
        ⟨true, [], true, fun _ => "hi"⟩).result ≠ .error 400 d :=
  c1_no_empty_input_validation ⟨"", "", some "Bearer tok"⟩
    ⟨true, [], true, fun _ => "hi"⟩ "tok" (by rfl)

/-- C2 (counterexample): with retrieval yielding ZERO chunks, the answer
    operation still invokes the external generation capability (on the empty
    stuffed context) and returns the generated text — not the fixed
    "no information found" sentinel.  This refutes the claim. -/
theorem c2_counterexample :
    (askQuestion ⟨"doc_x", "What is the supply?", some "Bearer t"⟩
        ⟨true, [], true, fun _ => "The supply is unknown."⟩).result =
      .ok "The supply is unknown." ∧
    ExtEvent.generate llm_model (stuffPrompt [] "What is the supply?") ∈
      (askQuestion ⟨"doc_x", "What is the supply?", some "Bearer t"⟩
        ⟨true, [], true, fun _ => "The supply is unknown."⟩).events ∧
    ("The supply is unknown." : String) ≠ "no information found" := by
  exact ⟨rfl, by decide, by decide⟩

/-- C2 (amended): the answer operation unconditionally invokes the external
    generation capability — also when retrieval yields zero chunks, in which
    case generation runs on an empty stuffed context — and, whenever the
    store and generation calls succeed, returns the generated text verbatim;
    no sentinel "no information found" path exists in the code. -/
theorem c2_generation_always_invoked (req : AskRequest) (w : AskWorld) (tk : String)
    (h : authorize req.auth = .ok tk) (hs : w.storeOk = true) (hg : w.genOk = true) :
    (askQuestion req w).result = .ok (w.llm (stuffPrompt w.retrieved req.query)) ∧
    ExtEvent.generate llm_model (stuffPrompt w.retrieved req.query) ∈
      (askQuestion req w).events := by
  simp [askQuestion, h, hs, hg]

/-- C2 (witness): the amended theorem applied at a concrete request whose
    retrieval yields zero chunks. -/
theorem c2_witness :
    (askQuestion ⟨"doc_y", "q", some "Bearer tok"⟩
        ⟨true, [], true, fun _ => "made up answer"⟩).result = .ok "made up answer" ∧
    ExtEvent.generate llm_model (stuffPrompt [] "q") ∈
      (askQuestion ⟨"doc_y", "q", some "Bearer tok"⟩
        ⟨true, [], true, fun _ => "made up answer"⟩).events :=
  c2_generation_always_invoked ⟨"doc_y", "q", some "Bearer tok"⟩
    ⟨true, [], true, fun _ => "made up answer"⟩ "tok" (by rfl) rfl rfl

/-- C3 (counterexample): a PDF upload whose extraction-and-splitting step
    yields ZERO chunks (here: one page of empty extracted text) is not
    rejected with `EmptyDocument`: the vector-store upsert is still invoked
    (with an empty document list) and the operation returns success with the
    partition id.  This refutes the claim. -/
theorem c3_counterexample :
    (uploadWhitepaper ⟨"w.pdf", "application/pdf", [], some "Bearer t"⟩
        ⟨true, some [""], true⟩).result = .ok (sessionIdOf []) ∧
    ExtEvent.storeUpsert (sessionIdOf []) [] ∈
      (uploadWhitepaper ⟨"w.pdf", "application/pdf", [], some "Bearer t"⟩
        ⟨true, some [""], true⟩).events := by
  exact ⟨rfl, by decide⟩

/-- C3 (amended): the ingestion operation contains no zero-chunk check: for
    every authorized PDF upload whose staging and extraction succeed but
    whose splitting yields zero chunks, the vector-store upsert is invoked
    anyway (with an empty chunk list), and if the upsert succeeds the
    operation returns success with the content-derived partition id — no
    `EmptyDocument` error exists. -/
theorem c3_zero_chunks_still_upserted (req : UploadRequest) (w : UploadWorld)
    (tk : String) (pages : List String)
    (h : authorize req.auth = .ok tk)
    (hct : req.contentType = "application/pdf")
    (hst : w.stageOk = true)
    (hp : w.pages = some pages)
    (hchunks : (pages.flatMap fun p => splitText chunk_size chunk_overlap p.data) = [])
    (hup : w.upsertOk = true) :
    (uploadWhitepaper req w).result = .ok (sessionIdOf req.content) ∧
    ExtEvent.storeUpsert (sessionIdOf req.content) [] ∈
      (uploadWhitepaper req w).events := by
  simp [uploadWhitepaper, uploadTryFinally, h, hct, hst, hp, hchunks, hup]

/-- C3 (witness): the amended theorem applied at a concrete zero-chunk
    upload. -/
theorem c3_witness :
    (uploadWhitepaper ⟨"v.pdf", "application/pdf", [1, 2], some "Bearer tok"⟩
        ⟨true, some [], true⟩).result = .ok (sessionIdOf [1, 2]) ∧
    ExtEvent.storeUpsert (sessionIdOf [1, 2]) [] ∈
      (uploadWhitepaper ⟨"v.pdf", "application/pdf", [1, 2], some "Bearer tok"⟩
        ⟨true, some [], true⟩).events :=
  c3_zero_chunks_still_upserted ⟨"v.pdf", "application/pdf", [1, 2], some "Bearer tok"⟩
    ⟨true, some [], true⟩ "tok" [] (by rfl) rfl rfl rfl rfl rfl

/-- C4: the partition identifier returned by a successful ingestion is a
    pure function of the uploaded bytes: any two successful uploads of the
    same byte sequence — regardless of file name, declared media type,
    extraction result or store behavior — return the same `session_id`. -/
theorem c4_fingerprint_deterministic (req1 req2 : UploadRequest)
    (w1 w2 : UploadWorld) (s1 s2 : String)
    (hc : req1.content = req2.content)
    (h1 : (uploadWhitepaper req1 w1).result = .ok s1)
    (h2 : (uploadWhitepaper req2 w2).result = .ok s2) : s1 = s2 := by
  rw [upload_ok_sessionId h1, upload_ok_sessionId h2, hc]

/-- C4 (witness): two concrete successful uploads of the same bytes under
    different file names and different extraction results return the same
    partition id. -/
theorem c4_witness :
    (uploadWhitepaper ⟨"a.pdf", "application/pdf", [97, 98, 99], some "Bearer t"⟩
        ⟨true, some ["hello"], true⟩).result = .ok (sessionIdOf [97, 98, 99]) ∧
    (uploadWhitepaper ⟨"b.pdf", "application/pdf", [97, 98, 99], some "Bearer u"⟩
        ⟨true, some ["other text entirely"], true⟩).result = .ok (sessionIdOf [97, 98, 99]) ∧
    sessionIdOf [97, 98, 99] = sessionIdOf [97, 98, 99] := by
  refine ⟨rfl, rfl, ?_⟩
  exact c4_fingerprint_deterministic
    ⟨"a.pdf", "application/pdf", [97, 98, 99], some "Bearer t"⟩
    ⟨"b.pdf", "application/pdf", [97, 98, 99], some "Bearer u"⟩
    ⟨true, some ["hello"], true⟩ ⟨true, some ["other text entirely"], true⟩
    _ _ rfl rfl rfl

/-- C5: an authorized upload whose declared media type is not
    `application/pdf` is rejected with HTTP 400 ("Invalid file type.")
    with zero observable side effects: no temporary file is created, no
    extraction happens, and no external capability is called. -/
theorem c5_non_pdf_rejected_before_work (req : UploadRequest) (w : UploadWorld)
    (tk : String) (h : authorize req.auth = .ok tk)
    (hct : req.contentType ≠ "application/pdf") :
    uploadWhitepaper req w =
      { result := .error 400 "Invalid file type.", events := [], tempLeft := false } := by
  simp [uploadWhitepaper, h, hct]

/-- C5 (witness): the theorem applied at a concrete `text/plain` upload. -/
theorem c5_witness :
    uploadWhitepaper ⟨"notes.txt", "text/plain", [104, 105], some "Bearer tok"⟩
        ⟨true, some ["hi"], true⟩ =
      { result := .error 400 "Invalid file type.", events := [], tempLeft := false } :=
  c5_non_pdf_rejected_before_work ⟨"notes.txt", "text/plain", [104, 105], some "Bearer tok"⟩
    ⟨true, some ["hi"], true⟩ "tok" (by rfl) (by decide)

/-- C6 (code bug): the claim fails on one exit path of the source.  When an
    authorized PDF upload's staging step raises (an exception in
    `await file.read()` or `tmp_file.write(content)`, src/main.py lines
    141-142) after `tempfile.NamedTemporaryFile(delete=False)` has created
    the staging file but before `tmp_file_path = tmp_file.name` runs, the
    operation returns HTTP 500 with the temporary file still on disk: the
    `finally` guard `if tmp_file_path and os.path.exists(tmp_file_path)`
    sees `tmp_file_path` still `None` and removes nothing.  On every exit
    path where staging succeeded — success, extraction failure, upsert
    failure — and on the early-rejection paths that create no file, the
    temporary file is gone on return, which shows the leak is confined to
    the staging-failure window. -/
theorem c6_temp_leaks_on_staging_failure :
    (uploadWhitepaper ⟨"w.pdf", "application/pdf", [1, 2, 3], some "Bearer t"⟩
        ⟨false, some ["hi"], true⟩).tempLeft = true ∧
    (uploadWhitepaper ⟨"w.pdf", "application/pdf", [1, 2, 3], some "Bearer t"⟩
        ⟨false, some ["hi"], true⟩).result = .error 500 "staging failed" ∧
    (∀ (req : UploadRequest) (w : UploadWorld), w.stageOk = true →
        (uploadWhitepaper req w).tempLeft = false) := by
  refine ⟨rfl, rfl, ?_⟩
  intro req w h
  unfold uploadWhitepaper
  split
  · rfl
  · split
    · rfl
    · unfold uploadTryFinally
      rw [if_pos h]
      split
      · rfl
      · split <;> rfl

/-- C6 (witness): the cleanup conjunct of the theorem applied at a concrete
    upload whose staging succeeds. -/
theorem c6_witness :
    (uploadWhitepaper ⟨"w.pdf", "application/pdf", [1, 2, 3], some "Bearer t"⟩
        ⟨true, some ["hi"], true⟩).tempLeft = false :=
  c6_temp_leaks_on_staging_failure.2.2
    ⟨"w.pdf", "application/pdf", [1, 2, 3], some "Bearer t"⟩
    ⟨true, some ["hi"], true⟩ rfl

/-- C7: ingestion and query use one and the same embedding-model
    configuration: every embedding call observable in any upload request and
    every embedding call observable in any ask request carries exactly the
    module-level `embeddings_model` identifier. -/
theorem c7_single_embedding_model :
    (∀ (req : UploadRequest) (w : UploadWorld) (m : String),
        ExtEvent.embedCall m ∈ (uploadWhitepaper req w).events → m = embeddings_model) ∧
    (∀ (req : AskRequest) (w : AskWorld) (m : String),
        ExtEvent.embedCall m ∈ (askQuestion req w).events → m = embeddings_model) := by
  constructor
  · intro req w m hm
    unfold uploadWhitepaper at hm
    split at hm
    · simp at hm
    · split at hm
      · simp at hm
      · unfold uploadTryFinally at hm
        split at hm
        · split at hm
          · simp at hm
          · split at hm <;> simp at hm <;> exact hm
        · simp at hm
  · intro req w m hm
    unfold askQuestion at hm
    split at hm
    · simp at hm
    · split at hm
      · split at hm <;> simp at hm <;> exact hm
      · simp at hm

/-- C7 (witness): concrete ingestion and query runs in which the embedding
    call occurs, both carrying the single configured model identifier. -/
theorem c7_witness :
    ExtEvent.embedCall embeddings_model ∈
      (uploadWhitepaper ⟨"a.pdf", "application/pdf", [97], some "Bearer t"⟩
        ⟨true, some ["hi"], true⟩).events ∧
    ExtEvent.embedCall embeddings_model ∈
      (askQuestion ⟨"doc_z", "q", some "Bearer t"⟩
        ⟨true, ["ctx"], true, fun _ => "a"⟩).events ∧
    embeddings_model = embeddings_model := by
  refine ⟨by decide, by decide, ?_⟩
  exact c7_single_embedding_model.2 ⟨"doc_z", "q", some "Bearer t"⟩
    ⟨true, ["ctx"], true, fun _ => "a"⟩ embeddings_model (by decide)

/-- C8: every chunk produced by the configured splitter (maximum length
    1000, overlap 200) has length at most `chunk_size`, and every pair of
    consecutive chunks overlaps in exactly `chunk_overlap` characters: the
    last 200 characters of each chunk are precisely the first 200 characters
    of its successor. -/
theorem c8_chunk_bounds (text : List Char) :
    (∀ c ∈ splitText chunk_size chunk_overlap text, c.length ≤ chunk_size) ∧
    List.Chain' (fun a b => a.drop (chunk_size - chunk_overlap) = b.take chunk_overlap ∧
      (a.drop (chunk_size - chunk_overlap)).length = chunk_overlap)
      (splitText chunk_size chunk_overlap text) :=
  ⟨splitText_chunk_le chunk_size chunk_overlap text,
   splitText_chain chunk_size chunk_overlap (by decide) text⟩

/-- C8 (witness): the chunk-length bound applied to a concrete short text,
    whose single chunk is the text itself. -/
theorem c8_witness :
    "abc".data ∈ splitText chunk_size chunk_overlap "abc".data ∧
    "abc".data.length ≤ chunk_size :=
  ⟨by decide, (c8_chunk_bounds "abc".data).1 "abc".data (by decide)⟩

/-- C9: both pipeline endpoints require an `Authorization` bearer header —
    a missing header yields HTTP 401 with zero pipeline work — yet the
    bearer token's value is never decoded or verified on these endpoints:
    any non-empty token string is extracted and accepted as-is, and no JWT
    decode is ever observable in either endpoint's event trace. -/
theorem c9_bearer_required_never_verified :
    (∀ (req : UploadRequest) (w : UploadWorld), req.auth = none →
        (uploadWhitepaper req w).result = .error 401 "Not authenticated" ∧
        (uploadWhitepaper req w).events = []) ∧
    (∀ (req : AskRequest) (w : AskWorld), req.auth = none →
        (askQuestion req w).result = .error 401 "Not authenticated" ∧
        (askQuestion req w).events = []) ∧
    (∀ t : String, t ≠ "" → authorize (some ("Bearer " ++ t)) = .ok t) ∧
    (∀ (req : UploadRequest) (w : UploadWorld),
        ExtEvent.jwtDecode ∉ (uploadWhitepaper req w).events) ∧
    (∀ (req : AskRequest) (w : AskWorld),
        ExtEvent.jwtDecode ∉ (askQuestion req w).events) := by
  refine ⟨?_, ?_, ?_, ?_, ?_⟩
  · intro req w h
    simp [uploadWhitepaper, h, authorize_none]
  · intro req w h
    simp [askQuestion, h, authorize_none]
  · intro t _
    exact authorize_bearer t
  · intro req w
    unfold uploadWhitepaper
    split
    · simp
    · split
      · simp
      · unfold uploadTryFinally
        split
        · split
          · simp
          · split <;> simp
        · simp
  · intro req w
    unfold askQuestion
    split
    · simp
    · split
      · split <;> simp
      · simp

/-- C9 (witness): the theorem applied at concrete inputs: a request without
    an `Authorization` header is rejected with 401 and no events, and a
    concrete non-empty bearer token is extracted verbatim. -/
theorem c9_witness :
    ((uploadWhitepaper ⟨"a.pdf", "application/pdf", [1], none⟩
        ⟨true, some ["x"], true⟩).result = .error 401 "Not authenticated" ∧
      (uploadWhitepaper ⟨"a.pdf", "application/pdf", [1], none⟩
        ⟨true, some ["x"], true⟩).events = []) ∧
    authorize (some ("Bearer " ++ "anything-at-all")) = .ok "anything-at-all" :=
  ⟨c9_bearer_required_never_verified.1 ⟨"a.pdf", "application/pdf", [1], none⟩
      ⟨true, some ["x"], true⟩ rfl,
   c9_bearer_required_never_verified.2.2.1 "anything-at-all" (by decide)⟩

/-- C10: every successful ingestion returns a `session_id` of the exact
    shape `"doc_"` followed by the 64 lowercase-hexadecimal characters of
    the SHA-256 digest of the uploaded bytes; in particular its length is
    always 68 and it is never empty. -/
theorem c10_session_id_shape (req : UploadRequest) (w : UploadWorld) (s : String)
    (h : (uploadWhitepaper req w).result = .ok s) :
    s = sessionIdOf req.content ∧
    s.length = 68 ∧
    s.data.take 4 = "doc_".data ∧
    (s.data.drop 4).length = 64 ∧
    (∀ c ∈ s.data.drop 4, c ∈ hexChars) ∧
    s ≠ "" := by
  have hs := upload_ok_sessionId h
  subst hs
  refine ⟨rfl, sessionIdOf_length req.content, ?_, ?_, ?_, ?_⟩
  · rw [sessionIdOf_data]
    rfl
  · rw [sessionIdOf_data]
    simp [sha256HexChars_length]
  · rw [sessionIdOf_data]
    intro c hc
    simp only [List.drop_succ_cons, List.drop_zero] at hc
    exact sha256HexChars_mem hc
  · intro heq
    have := congrArg String.data heq
    rw [sessionIdOf_data] at this
    simp at this

/-- C10 (witness): a concrete successful upload whose returned `session_id`
    has length 68. -/
theorem c10_witness :
    (uploadWhitepaper ⟨"a.pdf", "application/pdf", [97], some "Bearer t"⟩
        ⟨true, some ["hi"], true⟩).result = .ok (sessionIdOf [97]) ∧
    (sessionIdOf [97]).length = 68 :=
  ⟨rfl, (c10_session_id_shape ⟨"a.pdf", "application/pdf", [97], some "Bearer t"⟩
      ⟨true, some ["hi"], true⟩ (sessionIdOf [97]) rfl).2.1⟩

end VeriDoc
